import Mathlib

/-
Verification development for the bpk_scrapper crawl-orchestration engine.

The Lean definitions below are a shallow embedding of the Python source:
  * src/src/database.py            (PerdaDatabase.merge_worker_databases and friends)
  * src/src/scraper_enhanced.py    (EnhancedPerdaScraper: validator, page tasks,
                                    scheduling loop, artifact download, state save)
  * src/src/core/base_scraper.py   (BaseScraper.save_scraping_state / load_scraping_state)
  * src/src/scrapers/bpk_scraper.py (BPKScraper: get_total_pages, run loop, download_pdf)

Modelling conventions:
  * Python dictionaries become association lists with in-place value update
    (setAssoc), Python sets become duplicate-free lists with append-at-end
    insertion (setAdd), matching CPython insertion-order semantics.
  * Python dict keys can be ints or strings in the same dict; they are modelled
    by the PyKey sum type.  json.dump turns an int dict key into its decimal
    string form, which json_object_key encodes.
  * Network effects are oracles passed in as explicit arguments; the worker
    pool is serialized (one task processed per loop step), which preserves
    every per-task state transition of the source.
  * Timestamps (datetime.now().isoformat()) are an explicit String argument.
  * Parsed item lists are abstracted to their length, which is the only
    attribute the orchestration logic reads (validation, totals, logging).
-/

/-- Python dict key that may be an int or a string (both occur for the
checkpoint failed_pages dict: ints in memory, strings after a JSON round trip). -/
inductive PyKey where
  | int (n : Nat)
  | str (s : String)
deriving DecidableEq, Repr

/-- Decimal-string form a JSON object key takes after json.dump: int keys are
stringified, string keys are kept. -/
def json_object_key : PyKey → String
  | .int n => toString n
  | .str s => s

/-- Does a checkpoint dict key denote the page number p?  An int key denotes
its own value, a string key denotes the page whose decimal form it is
(the external checkpoint format of the spec stores pages as string keys). -/
def pykey_is_page (k : PyKey) (p : Nat) : Bool :=
  match k with
  | .int n => decide (n = p)
  | .str s => decide (s = toString p)

/-- Python set.add on an insertion-ordered duplicate-free list. -/
def setAdd (s : List Nat) (x : Nat) : List Nat :=
  if x ∈ s then s else s ++ [x]

/-- Python dict assignment d[k] = v: replace in place if the key exists,
else append at the end (CPython insertion order). -/
def setAssoc {α β : Type} [DecidableEq α] : List (α × β) → α → β → List (α × β)
  | [], k, v => [(k, v)]
  | kv :: rest, k, v => if kv.1 = k then (k, v) :: rest else kv :: setAssoc rest k v

/-- Python dict lookup d.get(k). -/
def getAssoc {α β : Type} [DecidableEq α] : List (α × β) → α → Option β
  | [], _ => none
  | kv :: rest, k => if kv.1 = k then some kv.2 else getAssoc rest k

/-- Python set(list): deduplicate keeping first occurrences. -/
def pySetOfList (l : List Nat) : List Nat := l.foldl setAdd []

/-- FailureInfo: the value stored in failed_pages by the enhanced scraper
(src/src/scraper_enhanced.py lines 553-558). -/
structure FailureInfo where
  error : String
  retry_count : Nat
  timestamp : String
  final_failure : Bool
deriving DecidableEq, Repr

/-- RunState: the in-memory checkpoint state of BaseScraper
(scraped_pages set, failed_pages dict, total_items counter).  The value type
of failed_pages is a parameter because the enhanced scraper stores FailureInfo
records while BPKScraper stores plain str(e) strings. -/
structure RunState (α : Type) where
  scraped_pages : List Nat
  failed_pages : List (PyKey × α)
  total_items : Nat
deriving DecidableEq, Repr

/-- CheckpointFile: what json.dump writes for the state dict of
BaseScraper.save_scraping_state (lines 175-187): object keys are strings. -/
structure CheckpointFile (α : Type) where
  scraped_pages : List Nat
  failed_pages : List (String × α)
  total_items : Nat
  timestamp : String
deriving DecidableEq, Repr

/-- Outcome of trying to read the checkpoint file in load_scraping_state. -/
inductive LoadResult (α : Type) where
  | missing
  | corrupt
  | ok (file : CheckpointFile α)

/-- BaseScraper.save_scraping_state (src/src/core/base_scraper.py lines 175-187):
serialize scraped_pages as a list, failed_pages as a JSON object (int keys
become decimal strings), total_items, and a timestamp. -/
def save_scraping_state {α : Type} (st : RunState α) (now : String) : CheckpointFile α :=
  { scraped_pages := st.scraped_pages
    failed_pages := st.failed_pages.map (fun kv => (json_object_key kv.1, kv.2))
    total_items := st.total_items
    timestamp := now }

/-- BaseScraper.load_scraping_state (lines 189-205): on a missing file or any
exception the prior state is left untouched and False is returned; on success
scraped_pages is rebuilt with set(...), failed_pages is taken as parsed (its
keys stay the JSON strings), total_items is taken as parsed. -/
def load_scraping_state {α : Type} (prior : RunState α) : LoadResult α → RunState α × Bool
  | .missing => (prior, false)
  | .corrupt => (prior, false)
  | .ok f =>
    ({ scraped_pages := pySetOfList f.scraped_pages
       failed_pages := f.failed_pages.map (fun kv => (PyKey.str kv.1, kv.2))
       total_items := f.total_items }, true)

/-- Initial (empty) run state of a freshly constructed scraper. -/
def empty_run_state {α : Type} : RunState α := ⟨[], [], 0⟩

/-- File-system operation issued while saving a checkpoint. -/
inductive FileOp where
  | open_trunc (path : String)
  | write (path : String) (data : String)
  | close (path : String)
  | rename (src : String) (dst : String)
deriving DecidableEq, Repr

/-- Is the operation a rename (the atomic-replace primitive)? -/
def FileOp.is_rename : FileOp → Bool
  | .rename _ _ => true
  | _ => false

/-- Effect of one file operation on a path-to-contents map: a truncating open
empties the file, a write appends, close is a no-op, rename moves contents. -/
def apply_file_op (fs : List (String × String)) : FileOp → List (String × String)
  | .open_trunc p => setAssoc fs p ""
  | .write p d => setAssoc fs p (((getAssoc fs p).getD "") ++ d)
  | .close _ => fs
  | .rename src dst =>
    match getAssoc fs src with
    | none => fs
    | some v => setAssoc (fs.filter (fun kv => !(decide (kv.1 = src)))) dst v

/-- Run a sequence of file operations. -/
def apply_file_ops (fs : List (String × String)) (ops : List FileOp) : List (String × String) :=
  ops.foldl apply_file_op fs

/-- The exact file operations BaseScraper.save_scraping_state performs
(lines 184-185): with open(self.state_file, 'w') as f: json.dump(state, f).
It opens the target file itself with truncation and writes into it; there is
no temporary file and no rename. -/
def save_scraping_state_ops (state_file : String) (serialized : String) : List FileOp :=
  [.open_trunc state_file, .write state_file serialized, .close state_file]

/-- EnhancedPerdaScraper.validate_page_items (src/src/scraper_enhanced.py
lines 410-430): a last page is valid iff it has at least one item; an
ordinary page is valid iff its item count reaches min_items_per_page.
The page number is only used for logging. -/
def validate_page_items (min_items_per_page : Nat) (item_count : Nat)
    (page_num : Nat) (is_last_page : Bool) : Bool :=
  if is_last_page then
    if item_count = 0 then false else true
  else
    if item_count < min_items_per_page then false else true

theorem getAssoc_setAssoc_self {α β : Type} [DecidableEq α]
    (m : List (α × β)) (k : α) (v : β) : getAssoc (setAssoc m k v) k = some v := by
  induction m with
  | nil => simp [setAssoc, getAssoc]
  | cons kv rest ih =>
    by_cases h : kv.1 = k
    · simp [setAssoc, getAssoc, h]
    · simp [setAssoc, getAssoc, h, ih]

theorem mem_setAssoc {α β : Type} [DecidableEq α]
    (m : List (α × β)) (k : α) (v : β) :
    ∀ kv ∈ setAssoc m k v, kv ∈ m ∨ kv.1 = k := by
  induction m with
  | nil =>
    intro kv hkv
    simp [setAssoc] at hkv
    right; rw [hkv]
  | cons hd rest ih =>
    intro kv hkv
    by_cases h : hd.1 = k
    · simp [setAssoc, h] at hkv
      rcases hkv with h1 | h1
      · right; rw [h1]
      · left; exact List.mem_cons_of_mem _ h1
    · simp only [setAssoc, if_neg h, List.mem_cons] at hkv
      rcases hkv with h1 | h1
      · left; rw [h1]; exact List.mem_cons_self _ _
      · rcases ih kv h1 with h2 | h2
        · left; exact List.mem_cons_of_mem _ h2
        · right; exact h2

theorem mem_setAdd (s : List Nat) (x y : Nat) (h : y ∈ setAdd s x) : y ∈ s ∨ y = x := by
  by_cases hx : x ∈ s
  · left; simpa [setAdd, hx] using h
  · simpa [setAdd, hx, List.mem_append] using h

theorem mem_setAdd_self (s : List Nat) (x : Nat) : x ∈ setAdd s x := by
  by_cases hx : x ∈ s
  · simpa [setAdd, hx] using hx
  · simp [setAdd, hx]

theorem foldl_setAdd_of_nodup :
    ∀ (l acc : List Nat), (acc ++ l).Nodup → l.foldl setAdd acc = acc ++ l := by
  intro l
  induction l with
  | nil => intro acc _; simp
  | cons hd tl ih =>
    intro acc hnd
    have hmem : hd ∉ acc := by
      rcases List.nodup_append.1 hnd with ⟨_, _, hdisj⟩
      intro hc
      exact hdisj hc (List.mem_cons_self _ _)
    have hstep : setAdd acc hd = acc ++ [hd] := by simp [setAdd, hmem]
    have hnd2 : ((acc ++ [hd]) ++ tl).Nodup := by
      have : (acc ++ [hd]) ++ tl = acc ++ hd :: tl := by simp
      rw [this]; exact hnd
    calc (hd :: tl).foldl setAdd acc = tl.foldl setAdd (setAdd acc hd) := rfl
      _ = tl.foldl setAdd (acc ++ [hd]) := by rw [hstep]
      _ = (acc ++ [hd]) ++ tl := ih (acc ++ [hd]) hnd2
      _ = acc ++ hd :: tl := by simp

theorem pySetOfList_eq_self (l : List Nat) (h : l.Nodup) : pySetOfList l = l := by
  have := foldl_setAdd_of_nodup l [] (by simpa using h)
  simpa [pySetOfList] using this

/-- Configuration fields of EnhancedPerdaScraper that the orchestration logic
reads: max_retries, min_items_per_page, and the early-exit total_expected. -/
structure EnhConfig where
  max_retries : Nat
  min_items_per_page : Nat
  total_expected : Nat
deriving DecidableEq, Repr

/-- Outcome of the network-fetch-and-parse phase of scrape_page_enhanced for
one attempt at one page.  ok n stands for a parse that produced n items;
request_error stands for any exception escaping make_request_with_retry
(timeout, connection error, rate limiting after backoff exhaustion), which the
outer generic except of scrape_page_enhanced catches. -/
inductive FetchOutcome where
  | ok (items : Nat)
  | empty_response
  | parse_error (msg : String)
  | request_error (msg : String)
deriving DecidableEq, Repr

/-- Return value of scrape_page_enhanced: the page number, the item count
returned to the caller, the error message if any, and whether the
accept-after-max-retries warning branch (degraded accept, line 519) ran. -/
structure ScrapeResult where
  page_num : Nat
  items : Nat
  error : Option String
  accepted_degraded : Bool
deriving DecidableEq, Repr

/-- EnhancedPerdaScraper.scrape_page_enhanced (lines 432-534) reduced to its
control flow over the fetch outcome: request-level exceptions, empty
responses and parse errors return an empty item list with an error message;
a parsed page failing validation returns an error while retries remain and
is accepted with its items (degraded) once retry_count has reached
max_retries; a valid page returns its items with no error. -/
def scrape_page_enhanced (cfg : EnhConfig) (page_num retry_count : Nat)
    (is_last_page : Bool) (outcome : FetchOutcome) : ScrapeResult :=
  match outcome with
  | .request_error msg => ⟨page_num, 0, some ("Unexpected error scraping page: " ++ msg), false⟩
  | .empty_response => ⟨page_num, 0, some "Empty response for page", false⟩
  | .parse_error msg => ⟨page_num, 0, some ("Parsing error: " ++ msg), false⟩
  | .ok n =>
    if validate_page_items cfg.min_items_per_page n page_num is_last_page then
      ⟨page_num, n, none, false⟩
    else if retry_count < cfg.max_retries then
      ⟨page_num, 0, some "Insufficient items on page", false⟩
    else
      ⟨page_num, n, none, true⟩

/-- PageTask (src/src/scraper_enhanced.py lines 93-102): priority-ordered
scheduling unit; only priority takes part in ordering, the rest is payload. -/
structure PageTask where
  priority : Nat
  page_num : Nat
  retry_count : Nat := 0
  last_error : String := ""
  items_found : Nat := 0
  is_last_page : Bool := false
  retry_reason : String := ""
deriving DecidableEq, Repr

/-- Mutable per-run state of EnhancedPerdaScraper that page processing
touches: scraped_pages (set), failed_pages (dict page -> FailureInfo),
page_data (dict page -> item count), and the total_items_scraped counter. -/
structure CoreState where
  scraped_pages : List Nat := []
  failed_pages : List (Nat × FailureInfo) := []
  page_data : List (Nat × Nat) := []
  total_items_scraped : Nat := 0
deriving DecidableEq, Repr

/-- Result of one call to process_page_task_enhanced: the updated scraper
state, the (possibly mutated) task object, the boolean return value, and the
list of tasks the call put on any scheduler queue.  The source performs no
queue put in any branch, which queue_puts records faithfully. -/
structure ProcResult where
  state : CoreState
  task : PageTask
  success : Bool
  queue_puts : List PageTask
deriving DecidableEq, Repr

/-- Body of EnhancedPerdaScraper.process_page_task_enhanced (lines 536-605)
after scrape_page_enhanced has returned r.  On an error with retries left the
task object is mutated (retry_count+1, last_error, retry_reason) and False is
returned; the source logs a queuing message but puts the task on no queue.
On an error with retries exhausted a final_failure entry is written into
failed_pages.  On success the page is added to scraped_pages, its items are
recorded in page_data and total_items_scraped grows by the item count.
PDF side effects of the success branch are modelled separately
(download_pdf) and touch none of this state. -/
def apply_scrape_result (cfg : EnhConfig) (st : CoreState) (task : PageTask)
    (now : String) (r : ScrapeResult) : ProcResult :=
  match r.error with
  | some err =>
    if task.retry_count < cfg.max_retries then
      { state := st
        task := { task with
                    retry_count := task.retry_count + 1
                    last_error := err
                    retry_reason := "Retry due to: " ++ err }
        success := false
        queue_puts := [] }
    else
      { state := { st with
                     failed_pages := setAssoc st.failed_pages r.page_num
                       ⟨err, task.retry_count, now, true⟩ }
        task := task
        success := false
        queue_puts := [] }
  | none =>
    { state := { st with
                   scraped_pages := setAdd st.scraped_pages r.page_num
                   page_data := setAssoc st.page_data r.page_num r.items
                   total_items_scraped := st.total_items_scraped + r.items }
      task := task
      success := true
      queue_puts := [] }

/-- EnhancedPerdaScraper.process_page_task_enhanced (lines 536-605):
is_last_page is recomputed from total_pages, then the scrape result is
dispatched by apply_scrape_result. -/
def process_page_task_enhanced (cfg : EnhConfig) (st : CoreState) (task : PageTask)
    (total_pages : Nat) (now : String) (outcome : FetchOutcome) : ProcResult :=
  apply_scrape_result cfg st task now
    (scrape_page_enhanced cfg task.page_num task.retry_count
      (decide (task.page_num = total_pages)) outcome)

/-- Python range(a, b) as a list. -/
def py_range (a b : Nat) : List Nat := (List.range (b - a)).map (fun i => a + i)

/-- Seeding of the priority queue in scrape_all_with_validation (lines
680-683): max_pages = min(total_pages, 2000); one task per page 1..max_pages. -/
def seed_pages (total_pages : Nat) : List PageTask :=
  (py_range 1 (min total_pages 2000 + 1)).map (fun p => { priority := p, page_num := p })

/-- State of the scheduling loop of scrape_all_with_validation: the priority
queue (kept as an ascending list, which the all-distinct ascending seed makes
equivalent), the retry queue, the scraper state, and the log of processed
(page_num, retry_count) attempts. -/
structure LoopState where
  page_queue : List PageTask
  retry_queue : List PageTask
  core : CoreState
  attempts : List (Nat × Nat)
deriving DecidableEq, Repr

/-- Loop state right after seeding (lines 677-683). -/
def init_loop_state (total_pages : Nat) : LoopState :=
  { page_queue := seed_pages total_pages
    retry_queue := []
    core := {}
    attempts := [] }

/-- Processing of one submitted task inside the scheduling loop: the task is
run by process_page_task_enhanced against the fetch oracle, any queue puts it
performed are appended to the retry queue, and the attempt is logged. -/
def run_task (cfg : EnhConfig) (total_pages : Nat) (now : String)
    (oracle : Nat → Nat → FetchOutcome) (ls : LoopState) (t : PageTask)
    (new_page_queue new_retry_queue : List PageTask) : LoopState :=
  let pr := process_page_task_enhanced cfg ls.core t total_pages now
    (oracle t.page_num t.retry_count)
  { page_queue := new_page_queue
    retry_queue := new_retry_queue ++ pr.queue_puts
    core := pr.state
    attempts := ls.attempts ++ [(t.page_num, t.retry_count)] }

/-- One iteration of the while loop of scrape_all_with_validation (lines
691-738), serialized: stop when the expected item total is reached or both
queues are empty; otherwise draw from the page queue first, then from the
retry queue. -/
def loop_step (cfg : EnhConfig) (total_pages : Nat) (now : String)
    (oracle : Nat → Nat → FetchOutcome) (ls : LoopState) : Option LoopState :=
  if cfg.total_expected ≤ ls.core.total_items_scraped then none
  else
    match ls.page_queue with
    | t :: rest => some (run_task cfg total_pages now oracle ls t rest ls.retry_queue)
    | [] =>
      match ls.retry_queue with
      | t :: rest => some (run_task cfg total_pages now oracle ls t [] rest)
      | [] => none

/-- Fuelled iteration of loop_step to a fixed point. -/
def run_loop (cfg : EnhConfig) (total_pages : Nat) (now : String)
    (oracle : Nat → Nat → FetchOutcome) : Nat → LoopState → LoopState
  | 0, ls => ls
  | fuel + 1, ls =>
    match loop_step cfg total_pages now oracle ls with
    | none => ls
    | some ls2 => run_loop cfg total_pages now oracle fuel ls2

/-- Page p appears nowhere in the loop state: not as the page number of a
queued task, of a logged attempt, of a scraped page, nor as a key of
failed_pages or page_data. -/
def PageUntouched (ls : LoopState) (p : Nat) : Prop :=
  (∀ t ∈ ls.page_queue, t.page_num ≠ p) ∧
  (∀ t ∈ ls.retry_queue, t.page_num ≠ p) ∧
  (∀ a ∈ ls.attempts, a.1 ≠ p) ∧
  (∀ q ∈ ls.core.scraped_pages, q ≠ p) ∧
  (∀ kv ∈ ls.core.failed_pages, kv.1 ≠ p) ∧
  (∀ kv ∈ ls.core.page_data, kv.1 ≠ p)

/-- Row of the perda table as the merge step sees it: the unique identity key
detail_url, the updated_at timestamp, and the remaining record fields
abstracted into title.  The AUTOINCREMENT id column is omitted: in the
two-shard single-record scenarios below both shards assign id 1, so the
REPLACE conflict on id names the same row as the conflict on detail_url. -/
structure DbRow where
  detail_url : String
  title : String
  updated_at : Nat
deriving DecidableEq, Repr

/-- Row of the scraping_log table (src/src/database.py lines 95-104). -/
structure ScrapingLogRow where
  page_number : Nat
  items_count : Nat
  status : String
  error_message : Option String
deriving DecidableEq, Repr

/-- One worker (shard) database: a perda table and a scraping_log table. -/
structure WorkerDb where
  perda : List DbRow
  scraping_log : List ScrapingLogRow
deriving DecidableEq, Repr

/-- The main (canonical) database. -/
structure MainDb where
  perda : List DbRow
  scraping_log : List ScrapingLogRow
deriving DecidableEq, Repr

/-- INSERT OR REPLACE INTO perda for one row: the UNIQUE constraint on
detail_url makes SQLite replace the existing row with the same detail_url,
otherwise the row is inserted. -/
def insert_or_replace_perda : List DbRow → DbRow → List DbRow
  | [], r => [r]
  | s :: rest, r =>
    if s.detail_url = r.detail_url then r :: rest else s :: insert_or_replace_perda rest r

/-- PerdaDatabase.merge_worker_databases (src/src/database.py lines 244-310):
for each worker database in iteration order, every row of worker.perda is
copied into the main perda table with INSERT OR REPLACE, and worker
scraping_log rows are appended.  No comparison of updated_at (or any other
column) is performed: on a detail_url conflict the incoming worker row
unconditionally replaces whatever the main table holds. -/
def merge_worker_databases (main : MainDb) (workers : List WorkerDb) : MainDb :=
  workers.foldl
    (fun m w =>
      { perda := w.perda.foldl insert_or_replace_perda m.perda
        scraping_log := m.scraping_log ++ w.scraping_log })
    main

/-- Total pages configured for the BPK source (src/src/config/bpk_config.py
line 34). -/
def EXPECTED_TOTAL_PAGES : Nat := 5893

/-- Outcome of the verification fetch inside BPKScraper.get_total_pages:
either some exception escaped (session, request, raise_for_status or parsing),
or a page was fetched whose only inspected feature is whether page-link
pagination elements are present. -/
inductive BpkFetchResult where
  | exn (msg : String)
  | page (has_pagination : Bool)
deriving DecidableEq, Repr

/-- BPKScraper.get_total_pages (src/src/scrapers/bpk_scraper.py lines 58-84):
the fetched content only selects which log line is emitted; every branch,
including the exception handler, returns EXPECTED_TOTAL_PAGES. -/
def get_total_pages (r : BpkFetchResult) : Nat :=
  match r with
  | .exn _ => EXPECTED_TOTAL_PAGES
  | .page has_pagination =>
    if has_pagination then EXPECTED_TOTAL_PAGES else EXPECTED_TOTAL_PAGES

/-- Outcome of one page future in BPKScraper.scrape_all_with_validation:
either _scrape_page_with_retry returned a list with n items, or
future.result() raised and str(e) is the message. -/
inductive BpkPageOutcome where
  | items (n : Nat)
  | exn (msg : String)
deriving DecidableEq, Repr

/-- Handling of one completed future in BPKScraper.scrape_all_with_validation
(lines 323-372): on a non-empty item list the page is added to scraped_pages
and total_items grows (failed_pages is not touched); an empty list changes
nothing; on an exception failed_pages[page_num] = str(e).  The run state is a
RunState String because BPKScraper stores plain strings in failed_pages. -/
def bpk_handle_page (st : RunState String) (page_num : Nat) : BpkPageOutcome → RunState String
  | .items n =>
    if n = 0 then st
    else { st with
             scraped_pages := setAdd st.scraped_pages page_num
             total_items := st.total_items + n }
  | .exn msg =>
    { st with failed_pages := setAssoc st.failed_pages (PyKey.int page_num) msg }

/-- BPKScraper.scrape_all_with_validation (lines 290-402), serialized: load
the previous state if a checkpoint exists, scrape every page of
1..total_pages not already in scraped_pages, and handle each outcome with
bpk_handle_page.  The merge and the final save follow and touch neither
scraped_pages nor failed_pages. -/
def bpk_scrape_all (total_pages : Nat) (file : LoadResult String)
    (outcomes : Nat → BpkPageOutcome) : RunState String :=
  let st0 := (load_scraping_state empty_run_state file).1
  let pages := (py_range 1 (total_pages + 1)).filter
    (fun p => !(decide (p ∈ st0.scraped_pages)))
  pages.foldl (fun st p => bpk_handle_page st p (outcomes p)) st0

/-- Python word character in the ASCII range, as matched by the regex
character class backslash-w used in download_pdf. -/
def is_word_char (c : Char) : Bool := c.isAlphanum || c = '_'

/-- re.sub removing every character that is not a word character, whitespace
or a hyphen (the first re.sub of download_pdf). -/
def strip_non_word (s : String) : String :=
  String.mk (s.toList.filter (fun c => is_word_char c || c.isWhitespace || c = '-'))

/-- Python str.strip(): drop leading and trailing whitespace. -/
def py_strip (s : String) : String :=
  String.mk (((s.toList.dropWhile Char.isWhitespace).reverse.dropWhile Char.isWhitespace).reverse)

/-- re.sub replacing each maximal run of hyphens and whitespace with one
underscore (the second re.sub of download_pdf). -/
def collapse_dash_space (s : String) : String :=
  (s.toList.foldl
    (fun acc c =>
      if c = '-' || c.isWhitespace then
        if acc.2 then acc else (acc.1.push '_', true)
      else (acc.1.push c, false))
    ("", false)).1

/-- The sanitization pipeline download_pdf applies to the region name and to
the truncated title: strip non-word characters, strip outer whitespace,
collapse hyphen and whitespace runs to underscores. -/
def sanitize_component (s : String) : String :=
  collapse_dash_space (py_strip (strip_non_word s))

/-- Python s[:n]. -/
def py_take (s : String) (n : Nat) : String := String.mk (s.toList.take n)

/-- Year directory component: str(year) if year else "unknown_year"
(a missing or zero year is falsy). -/
def year_to_dir : Option Nat → String
  | none => "unknown_year"
  | some y => if y = 0 then "unknown_year" else toString y

/-- Region name before sanitization: region_name or "unknown_region"
(a missing or empty region is falsy). -/
def region_raw : Option String → String
  | none => "unknown_region"
  | some r => if r = "" then "unknown_region" else r

/-- Destination path computed by EnhancedPerdaScraper.download_pdf (lines
816-830): docs/year/region/title-prefix.pdf, each component sanitized.  The
path is a function of the call arguments only. -/
def pdf_destination (year : Option Nat) (region_name : Option String) (title : String) : String :=
  "docs/" ++ year_to_dir year ++ "/" ++ sanitize_component (region_raw region_name) ++ "/"
    ++ sanitize_component (py_take title 100) ++ ".pdf"

/-- The retry loop of download_pdf (lines 839-858): up to `remaining` attempts
starting at index `attempt`; each attempt performs one network request; on the
first success the file is created and its path returned.  The result carries
the returned path, the file system (list of existing paths) and the number of
network requests performed. -/
def download_attempts (net : Nat → Bool) (path : String) (fs : List String) :
    Nat → Nat → Option String × List String × Nat
  | _, 0 => (none, fs, 0)
  | attempt, remaining + 1 =>
    if net attempt then (some path, path :: fs, 1)
    else
      match download_attempts net path fs (attempt + 1) remaining with
      | (res, fs2, n) => (res, fs2, n + 1)

/-- EnhancedPerdaScraper.download_pdf (lines 811-863): nothing happens when
the URL is missing or empty or downloads are disabled; if the destination
path already exists the fetch is skipped and the existing path returned with
zero network requests; otherwise up to three attempts are made. -/
def download_pdf (download_pdfs : Bool) (fs : List String) (net : Nat → Bool)
    (pdf_url : Option String) (year : Option Nat) (region_name : Option String)
    (title : String) : Option String × List String × Nat :=
  match pdf_url with
  | none => (none, fs, 0)
  | some u =>
    if u = "" ∨ download_pdfs = false then (none, fs, 0)
    else
      if pdf_destination year region_name title ∈ fs then
        (some (pdf_destination year region_name title), fs, 0)
      else
        download_attempts net (pdf_destination year region_name title) fs 0 3

/-- Claim C7: the validator boundary.  For any positive configured minimum,
an empty ordinary page is rejected, a last page with a single item is
accepted, and an ordinary page is accepted exactly when its item count
reaches the minimum. -/
theorem validate_page_items_boundary (min_items page last_page : Nat)
    (h : 0 < min_items) :
    validate_page_items min_items 0 page false = false ∧
    validate_page_items min_items 1 last_page true = true ∧
    ∀ n q, validate_page_items min_items n q false = decide (min_items ≤ n) := by
  refine ⟨by simp [validate_page_items, h], rfl, ?_⟩
  intro n q
  unfold validate_page_items
  rcases Nat.lt_or_ge n min_items with hn | hn
  · simp [hn, Nat.not_le.mpr hn]
  · simp [Nat.not_lt.mpr hn, hn]

/-- Witness for validate_page_items_boundary at the configured default
min_items_per_page = 18. -/
theorem validate_page_items_boundary_witness :
    0 < 18 ∧
    (validate_page_items 18 0 7 false = false ∧
     validate_page_items 18 1 300 true = true ∧
     ∀ n q, validate_page_items 18 n q false = decide (18 ≤ n)) :=
  ⟨by decide, validate_page_items_boundary 18 7 300 (by decide)⟩

/-- Claim C9: BPKScraper.get_total_pages returns the configured constant
EXPECTED_TOTAL_PAGES (5893) for every fetch result, including failed fetches;
the fetched content never influences the returned page count, and every
exception in the body lands in the handler that also returns the constant. -/
theorem get_total_pages_constant :
    ∀ r : BpkFetchResult, get_total_pages r = EXPECTED_TOTAL_PAGES ∧
      EXPECTED_TOTAL_PAGES = 5893 := by
  intro r
  refine ⟨?_, rfl⟩
  cases r with
  | exn m => rfl
  | page b => cases b <;> rfl

/-- Claim C5, counterexample: a crash right after the truncating open of the
state file leaves a truncated (empty) checkpoint where the previous
checkpoint used to be, contradicting the claimed temp-file-then-rename
atomicity. -/
theorem save_state_truncation_counterexample :
    getAssoc
      (apply_file_ops [("scraping_state_bpk.json", "old checkpoint")]
        ((save_scraping_state_ops "scraping_state_bpk.json" "new checkpoint").take 1))
      "scraping_state_bpk.json" = some "" ∧
    ("" : String) ≠ "old checkpoint" ∧ ("" : String) ≠ "new checkpoint" := by
  refine ⟨rfl, by decide, by decide⟩

/-- Claim C5, amended: save_scraping_state writes the checkpoint in place by
truncating the target file and writing into it.  A completed save does leave
the serialized state in the file, but the operation sequence contains no
rename (so no temp-file-then-rename mechanism), and a crash after the
truncating open leaves an empty file. -/
theorem save_state_in_place_characterization (fs : List (String × String))
    (file contents : String) :
    getAssoc (apply_file_ops fs (save_scraping_state_ops file contents)) file
      = some contents ∧
    getAssoc (apply_file_ops fs ((save_scraping_state_ops file contents).take 1)) file
      = some "" ∧
    ∀ op ∈ save_scraping_state_ops file contents, op.is_rename = false := by
  refine ⟨?_, ?_, ?_⟩
  · show getAssoc
      (apply_file_op (apply_file_op (apply_file_op fs (.open_trunc file))
        (.write file contents)) (.close file)) file = some contents
    simp [apply_file_op, getAssoc_setAssoc_self]
  · show getAssoc (apply_file_op fs (.open_trunc file)) file = some ""
    simp [apply_file_op, getAssoc_setAssoc_self]
  · intro op hop
    simp [save_scraping_state_ops] at hop
    rcases hop with h | h | h <;> subst h <;> rfl

/-- Claim C4, counterexample: a state whose failed_pages has the int key 3 is
not reproduced by load after save: json.dump stringifies the key and
load_scraping_state keeps the parsed string key "3". -/
theorem checkpoint_round_trip_counterexample :
    (load_scraping_state (empty_run_state : RunState FailureInfo)
        (LoadResult.ok (save_scraping_state
          ⟨[4], [(PyKey.int 3, ⟨"timeout", 5, "ts", true⟩)], 80⟩ "now"))).1
      ≠ ⟨[4], [(PyKey.int 3, ⟨"timeout", 5, "ts", true⟩)], 80⟩ := by
  decide

/-- Claim C4, amended: for a valid RunState (duplicate-free scraped_pages)
the load-after-save round trip reproduces scraped_pages and total_items
exactly, while every failed_pages key comes back as its JSON decimal-string
form; and load on a missing or corrupt checkpoint returns the empty state
unchanged without raising. -/
theorem checkpoint_round_trip_stringified (st : RunState FailureInfo)
    (now : String) (h : st.scraped_pages.Nodup) :
    load_scraping_state empty_run_state (LoadResult.ok (save_scraping_state st now))
      = ({ st with failed_pages :=
            st.failed_pages.map (fun kv => (PyKey.str (json_object_key kv.1), kv.2)) }, true) ∧
    load_scraping_state (empty_run_state : RunState FailureInfo) LoadResult.missing
      = (empty_run_state, false) ∧
    load_scraping_state (empty_run_state : RunState FailureInfo) LoadResult.corrupt
      = (empty_run_state, false) := by
  refine ⟨?_, rfl, rfl⟩
  have hred : load_scraping_state (empty_run_state : RunState FailureInfo)
      (LoadResult.ok (save_scraping_state st now))
      = ({ scraped_pages := pySetOfList st.scraped_pages
           failed_pages := (st.failed_pages.map (fun kv => (json_object_key kv.1, kv.2))).map
             (fun kv => (PyKey.str kv.1, kv.2))
           total_items := st.total_items }, true) := rfl
  rw [hred, pySetOfList_eq_self st.scraped_pages h, List.map_map]
  rfl

/-- Witness for checkpoint_round_trip_stringified at a concrete state with one
scraped page, one failed page and seven items. -/
theorem checkpoint_round_trip_stringified_witness :
    ([2] : List Nat).Nodup ∧
    (load_scraping_state empty_run_state (LoadResult.ok (save_scraping_state
        (⟨[2], [(PyKey.int 3, ⟨"timeout", 5, "ts", true⟩)], 7⟩ : RunState FailureInfo) "t"))
      = (⟨[2], [(PyKey.str "3", ⟨"timeout", 5, "ts", true⟩)], 7⟩, true) ∧
     load_scraping_state (empty_run_state : RunState FailureInfo) LoadResult.missing
      = (empty_run_state, false) ∧
     load_scraping_state (empty_run_state : RunState FailureInfo) LoadResult.corrupt
      = (empty_run_state, false)) :=
  ⟨by decide, checkpoint_round_trip_stringified
    ⟨[2], [(PyKey.int 3, ⟨"timeout", 5, "ts", true⟩)], 7⟩ "t" (by decide)⟩

/-- Claim C1, counterexample: two shards hold the same detail_url u, the
first-merged shard with updated_at 5, the second with updated_at 3.  After
merge the canonical store holds exactly one row for u, but it carries
updated_at 3 from the shard merged last, not the later value 5. -/
theorem merge_updated_at_counterexample :
    (merge_worker_databases ⟨[], []⟩
        [⟨[⟨"https://x/Details/1", "A", 5⟩], []⟩, ⟨[⟨"https://x/Details/1", "B", 3⟩], []⟩]).perda
      = [⟨"https://x/Details/1", "B", 3⟩] ∧
    max 5 3 = 5 ∧ (3 : Nat) ≠ 5 := by
  refine ⟨rfl, rfl, by decide⟩

/-- Claim C1, amended: when two shards each hold one record with the same
detail_url, the merged canonical store holds exactly one row for that
detail_url, and that row is the record of the shard merged last in iteration
order, regardless of the updated_at values. -/
theorem merge_last_shard_wins (r1 r2 : DbRow) (l1 l2 : List ScrapingLogRow)
    (h : r1.detail_url = r2.detail_url) :
    (merge_worker_databases ⟨[], []⟩ [⟨[r1], l1⟩, ⟨[r2], l2⟩]).perda = [r2] ∧
    ((merge_worker_databases ⟨[], []⟩ [⟨[r1], l1⟩, ⟨[r2], l2⟩]).perda.filter
        (fun r => r.detail_url == r2.detail_url)).length = 1 := by
  have hm : (merge_worker_databases ⟨[], []⟩ [⟨[r1], l1⟩, ⟨[r2], l2⟩]).perda = [r2] := by
    simp [merge_worker_databases, insert_or_replace_perda, h]
  refine ⟨hm, ?_⟩
  rw [hm]
  simp [List.filter]

/-- Witness for merge_last_shard_wins on two concrete conflicting rows. -/
theorem merge_last_shard_wins_witness :
    ("u" : String) = "u" ∧
    ((merge_worker_databases ⟨[], []⟩
        [⟨[⟨"u", "A", 9⟩], []⟩, ⟨[⟨"u", "B", 4⟩], []⟩]).perda = [⟨"u", "B", 4⟩] ∧
     ((merge_worker_databases ⟨[], []⟩
        [⟨[⟨"u", "A", 9⟩], []⟩, ⟨[⟨"u", "B", 4⟩], []⟩]).perda.filter
        (fun r => r.detail_url == "u")).length = 1) :=
  ⟨rfl, merge_last_shard_wins ⟨"u", "A", 9⟩ ⟨"u", "B", 4⟩ [] [] rfl⟩

/-- Claim C2: with total_pages = 1, max_retries = 3 and every fetch of page 1
failing, the run attempts page 1 exactly once, at retry_count 0 < 3.  The
rejected task is never placed on the retry queue (which stays empty for the
whole run) and afterwards appears neither in scraped_pages nor in
failed_pages: process_page_task_enhanced mutates the task and logs a queuing
message, but no branch performs a queue put, so the page is dropped instead
of being re-attempted. -/
theorem retry_task_dropped_not_requeued :
    (run_loop ⟨3, 18, 1000⟩ 1 "t" (fun _ _ => FetchOutcome.request_error "timeout") 10
        (init_loop_state 1)).attempts = [(1, 0)] ∧
    (run_loop ⟨3, 18, 1000⟩ 1 "t" (fun _ _ => FetchOutcome.request_error "timeout") 10
        (init_loop_state 1)).retry_queue = [] ∧
    (run_loop ⟨3, 18, 1000⟩ 1 "t" (fun _ _ => FetchOutcome.request_error "timeout") 10
        (init_loop_state 1)).core.scraped_pages = [] ∧
    (run_loop ⟨3, 18, 1000⟩ 1 "t" (fun _ _ => FetchOutcome.request_error "timeout") 10
        (init_loop_state 1)).core.failed_pages = [] ∧
    0 < 3 := by
  refine ⟨rfl, rfl, rfl, rfl, by decide⟩

/-- Outcome oracle of the first run in the claim C3 scenario: page 1 succeeds
with 10 items, page 2 raises a request exception. -/
def first_run_outcomes : Nat → BpkPageOutcome :=
  fun p => if p = 1 then .items 10 else .exn "RequestException: timeout"

/-- Final state of the claim C3 scenario: run 1 over pages 1..2 fails page 2
and is checkpointed; run 2 loads the checkpoint and every remaining page
succeeds with 10 items. -/
def resumed_run : RunState String :=
  bpk_scrape_all 2
    (LoadResult.ok (save_scraping_state (bpk_scrape_all 2 LoadResult.missing first_run_outcomes) "t1"))
    (fun _ => BpkPageOutcome.items 10)

/-- Claim C3: after a resumed run in which the previously failed page 2
succeeds, page 2 is a member of scraped_pages while the key denoting page 2
is still present in failed_pages: the success path of
BPKScraper.scrape_all_with_validation never removes a page from
failed_pages, violating the mutual-exclusion invariant. -/
theorem scraped_and_failed_overlap_after_resume :
    2 ∈ resumed_run.scraped_pages ∧
    resumed_run.failed_pages = [(PyKey.str "2", "RequestException: timeout")] ∧
    pykey_is_page (PyKey.str "2") 2 = true := by
  refine ⟨by decide, by decide, by decide⟩

/-- Observable outcomes of process_page_task_enhanced for a task whose
retry_count has reached max_retries, as claim C6 states them: a parsed page
failing validation (ordinary low-item failure) is accepted in a degraded
state — success is returned, the page joins scraped_pages, its items are kept
in page_data and counted into total_items_scraped, the degraded-accept branch
is flagged, and failed_pages is untouched; a request-level failure (request
error, parse error, empty response) is recorded in failed_pages with
final_failure and the max retry count, the page does not join scraped_pages,
and the task is put on no queue. -/
def max_retry_dispatch (cfg : EnhConfig) (st : CoreState) (task : PageTask)
    (total_pages : Nat) (now : String) (n : Nat) (msg : String) : Prop :=
  (process_page_task_enhanced cfg st task total_pages now (.ok n)).success = true ∧
  task.page_num ∈
    (process_page_task_enhanced cfg st task total_pages now (.ok n)).state.scraped_pages ∧
  (process_page_task_enhanced cfg st task total_pages now (.ok n)).state.total_items_scraped
    = st.total_items_scraped + n ∧
  getAssoc (process_page_task_enhanced cfg st task total_pages now (.ok n)).state.page_data
    task.page_num = some n ∧
  (scrape_page_enhanced cfg task.page_num task.retry_count
    (decide (task.page_num = total_pages)) (.ok n)).accepted_degraded = true ∧
  (process_page_task_enhanced cfg st task total_pages now (.ok n)).state.failed_pages
    = st.failed_pages ∧
  ((process_page_task_enhanced cfg st task total_pages now (.request_error msg)).success = false ∧
   getAssoc (process_page_task_enhanced cfg st task total_pages now
       (.request_error msg)).state.failed_pages task.page_num
     = some ⟨"Unexpected error scraping page: " ++ msg, cfg.max_retries, now, true⟩ ∧
   (process_page_task_enhanced cfg st task total_pages now
       (.request_error msg)).state.scraped_pages = st.scraped_pages ∧
   (process_page_task_enhanced cfg st task total_pages now (.request_error msg)).queue_puts = []) ∧
  ((process_page_task_enhanced cfg st task total_pages now (.parse_error msg)).success = false ∧
   getAssoc (process_page_task_enhanced cfg st task total_pages now
       (.parse_error msg)).state.failed_pages task.page_num
     = some ⟨"Parsing error: " ++ msg, cfg.max_retries, now, true⟩ ∧
   (process_page_task_enhanced cfg st task total_pages now
       (.parse_error msg)).state.scraped_pages = st.scraped_pages ∧
   (process_page_task_enhanced cfg st task total_pages now (.parse_error msg)).queue_puts = []) ∧
  ((process_page_task_enhanced cfg st task total_pages now .empty_response).success = false ∧
   getAssoc (process_page_task_enhanced cfg st task total_pages now
       .empty_response).state.failed_pages task.page_num
     = some ⟨"Empty response for page", cfg.max_retries, now, true⟩ ∧
   (process_page_task_enhanced cfg st task total_pages now
       .empty_response).state.scraped_pages = st.scraped_pages ∧
   (process_page_task_enhanced cfg st task total_pages now .empty_response).queue_puts = [])

/-- Claim C6: for a task processed at retry_count = max_retries, an ordinary
low-item validation failure leads to a degraded accept with the items kept
and counted, while a request-level failure leads to a permanent
final_failure entry and no re-queueing. -/
theorem max_retries_dispatch_asymmetry (cfg : EnhConfig) (st : CoreState)
    (task : PageTask) (total_pages : Nat) (now : String) (n : Nat) (msg : String)
    (hmax : task.retry_count = cfg.max_retries)
    (hval : validate_page_items cfg.min_items_per_page n task.page_num
      (decide (task.page_num = total_pages)) = false) :
    max_retry_dispatch cfg st task total_pages now n msg := by
  have hnl : ¬ task.retry_count < cfg.max_retries := by
    rw [hmax]; exact Nat.lt_irrefl _
  have hs : scrape_page_enhanced cfg task.page_num task.retry_count
      (decide (task.page_num = total_pages)) (FetchOutcome.ok n)
      = ⟨task.page_num, n, none, true⟩ := by
    simp [scrape_page_enhanced, hval, hnl]
  have hok : process_page_task_enhanced cfg st task total_pages now (FetchOutcome.ok n)
      = { state := { st with
            scraped_pages := setAdd st.scraped_pages task.page_num
            page_data := setAssoc st.page_data task.page_num n
            total_items_scraped := st.total_items_scraped + n }
          task := task
          success := true
          queue_puts := [] } := by
    unfold process_page_task_enhanced
    rw [hs]
    rfl
  have hreq : process_page_task_enhanced cfg st task total_pages now
      (FetchOutcome.request_error msg)
      = { state := { st with
            failed_pages := setAssoc st.failed_pages task.page_num
              ⟨"Unexpected error scraping page: " ++ msg, task.retry_count, now, true⟩ }
          task := task
          success := false
          queue_puts := [] } := by
    unfold process_page_task_enhanced scrape_page_enhanced apply_scrape_result
    simp [hnl]
  have hpar : process_page_task_enhanced cfg st task total_pages now
      (FetchOutcome.parse_error msg)
      = { state := { st with
            failed_pages := setAssoc st.failed_pages task.page_num
              ⟨"Parsing error: " ++ msg, task.retry_count, now, true⟩ }
          task := task
          success := false
          queue_puts := [] } := by
    unfold process_page_task_enhanced scrape_page_enhanced apply_scrape_result
    simp [hnl]
  have hemp : process_page_task_enhanced cfg st task total_pages now
      FetchOutcome.empty_response
      = { state := { st with
            failed_pages := setAssoc st.failed_pages task.page_num
              ⟨"Empty response for page", task.retry_count, now, true⟩ }
          task := task
          success := false
          queue_puts := [] } := by
    unfold process_page_task_enhanced scrape_page_enhanced apply_scrape_result
    simp [hnl]
  unfold max_retry_dispatch
  rw [hok, hreq, hpar, hemp, hs, hmax]
  refine ⟨rfl, mem_setAdd_self _ _, rfl, getAssoc_setAssoc_self _ _ _, rfl, rfl,
    ⟨rfl, getAssoc_setAssoc_self _ _ _, rfl, rfl⟩,
    ⟨rfl, getAssoc_setAssoc_self _ _ _, rfl, rfl⟩,
    ⟨rfl, getAssoc_setAssoc_self _ _ _, rfl, rfl⟩⟩

/-- Witness for max_retries_dispatch_asymmetry: max_retries = 3, a task at
retry_count 3 on page 5 of 100, 10 items against a minimum of 18. -/
theorem max_retries_dispatch_asymmetry_witness :
    (3 : Nat) = 3 ∧
    validate_page_items 18 10 5 (decide ((5 : Nat) = 100)) = false ∧
    max_retry_dispatch ⟨3, 18, 1000000⟩ ⟨[], [], [], 0⟩ ⟨5, 5, 3, "", 0, false, ""⟩
      100 "t" 10 "boom" :=
  ⟨rfl, by decide,
    max_retries_dispatch_asymmetry ⟨3, 18, 1000000⟩ ⟨[], [], [], 0⟩
      ⟨5, 5, 3, "", 0, false, ""⟩ 100 "t" 10 "boom" rfl (by decide)⟩

theorem download_attempts_some (net : Nat → Bool) (path : String) (fs : List String) :
    ∀ r i q fs2 m, download_attempts net path fs i r = (some q, fs2, m) →
      q = path ∧ fs2 = path :: fs := by
  intro r
  induction r with
  | zero =>
    intro i q fs2 m h
    simp [download_attempts] at h
  | succ r ih =>
    intro i q fs2 m h
    by_cases hn : net i
    · rw [download_attempts, if_pos hn] at h
      have h1 := congrArg (fun t => t.1) h
      have h2 := congrArg (fun t => t.2.1) h
      simp only [] at h1 h2
      exact ⟨Option.some.inj h1.symm, h2.symm⟩
    · rw [download_attempts, if_neg hn] at h
      rcases hda : download_attempts net path fs (i + 1) r with ⟨a, b, c⟩
      rw [hda] at h
      have h1 := congrArg (fun t => t.1) h
      have h2 := congrArg (fun t => t.2.1) h
      simp only [] at h1 h2
      exact ih (i + 1) q fs2 c (by rw [hda, h1, h2])

/-- Claim C8: if a first call to download_pdf returns a path (so the
destination file exists afterwards, whether freshly downloaded or already
present), a second call with identical arguments performs zero network
requests, leaves the file system unchanged, and returns the same existing
path — deduplication is by destination path. -/
theorem download_pdf_dedup_by_path (fs0 fs1 : List String) (net net2 : Nat → Bool)
    (u : String) (year : Option Nat) (region_name : Option String)
    (title p : String) (n1 : Nat)
    (h1 : download_pdf true fs0 net (some u) year region_name title = (some p, fs1, n1)) :
    download_pdf true fs1 net2 (some u) year region_name title = (some p, fs1, 0) := by
  by_cases hu : u = ""
  · rw [download_pdf, if_pos (Or.inl hu)] at h1
    have := congrArg (fun t => t.1) h1
    simp only [] at this
    exact absurd this (by simp)
  · have hcond : ¬ (u = "" ∨ (true : Bool) = false) := by simp [hu]
    rw [download_pdf, if_neg hcond] at h1
    rw [download_pdf, if_neg hcond]
    by_cases hmem : pdf_destination year region_name title ∈ fs0
    · rw [if_pos hmem] at h1
      have hp := congrArg (fun t => t.1) h1
      have hf := congrArg (fun t => t.2.1) h1
      simp only [] at hp hf
      have hp2 : pdf_destination year region_name title = p := Option.some.inj hp
      rw [if_pos (hf ▸ hmem), hp2]
    · rw [if_neg hmem] at h1
      obtain ⟨hq, hfs⟩ := download_attempts_some net _ fs0 3 0 p fs1 n1 h1
      have hmem2 : pdf_destination year region_name title ∈ fs1 := by
        rw [hfs]
        exact List.mem_cons_self _ _
      rw [if_pos hmem2, hq]

/-- Witness for download_pdf_dedup_by_path: a fresh file system, a first call
that succeeds on its first network attempt, then a second identical call that
sees the created file and makes no request (its network oracle always fails,
which cannot matter since it is never consulted). -/
theorem download_pdf_dedup_by_path_witness :
    download_pdf true [] (fun _ => true) (some "https://x/a.pdf") (some 2020)
        (some "Kota Bandung") "Perda No. 5"
      = (some "docs/2020/Kota_Bandung/Perda_No_5.pdf",
         ["docs/2020/Kota_Bandung/Perda_No_5.pdf"], 1) ∧
    download_pdf true ["docs/2020/Kota_Bandung/Perda_No_5.pdf"] (fun _ => false)
        (some "https://x/a.pdf") (some 2020) (some "Kota Bandung") "Perda No. 5"
      = (some "docs/2020/Kota_Bandung/Perda_No_5.pdf",
         ["docs/2020/Kota_Bandung/Perda_No_5.pdf"], 0) :=
  ⟨by decide,
    download_pdf_dedup_by_path [] ["docs/2020/Kota_Bandung/Perda_No_5.pdf"]
      (fun _ => true) (fun _ => false) "https://x/a.pdf" (some 2020)
      (some "Kota Bandung") "Perda No. 5" "docs/2020/Kota_Bandung/Perda_No_5.pdf" 1
      (by decide)⟩

theorem scrape_page_num_eq (cfg : EnhConfig) (pg rc : Nat) (il : Bool)
    (out : FetchOutcome) : (scrape_page_enhanced cfg pg rc il out).page_num = pg := by
  cases out with
  | ok n =>
    by_cases hv : validate_page_items cfg.min_items_per_page n pg il
    · simp [scrape_page_enhanced, hv]
    · by_cases hr2 : rc < cfg.max_retries
      · simp [scrape_page_enhanced, hv, hr2]
      · simp [scrape_page_enhanced, hv, hr2]
  | empty_response => rfl
  | parse_error m => rfl
  | request_error m => rfl

theorem apply_scrape_result_shape (cfg : EnhConfig) (st : CoreState) (task : PageTask)
    (now : String) (r : ScrapeResult) :
    (∀ q ∈ (apply_scrape_result cfg st task now r).state.scraped_pages,
       q ∈ st.scraped_pages ∨ q = r.page_num) ∧
    (∀ kv ∈ (apply_scrape_result cfg st task now r).state.failed_pages,
       kv ∈ st.failed_pages ∨ kv.1 = r.page_num) ∧
    (∀ kv ∈ (apply_scrape_result cfg st task now r).state.page_data,
       kv ∈ st.page_data ∨ kv.1 = r.page_num) ∧
    (apply_scrape_result cfg st task now r).queue_puts = [] := by
  rcases r with ⟨pg, it, err, deg⟩
  cases err with
  | none =>
    refine ⟨?_, ?_, ?_, rfl⟩
    · intro q hq
      exact mem_setAdd _ _ _ hq
    · intro kv hkv
      exact Or.inl hkv
    · intro kv hkv
      exact mem_setAssoc _ _ _ kv hkv
  | some e =>
    by_cases hlt : task.retry_count < cfg.max_retries
    · have hrec : apply_scrape_result cfg st task now ⟨pg, it, some e, deg⟩
          = { state := st
              task := { task with
                          retry_count := task.retry_count + 1
                          last_error := e
                          retry_reason := "Retry due to: " ++ e }
              success := false
              queue_puts := [] } := by
        simp [apply_scrape_result, hlt]
      rw [hrec]
      exact ⟨fun q hq => Or.inl hq, fun kv hkv => Or.inl hkv,
        fun kv hkv => Or.inl hkv, rfl⟩
    · have hrec : apply_scrape_result cfg st task now ⟨pg, it, some e, deg⟩
          = { state := { st with
                failed_pages := setAssoc st.failed_pages pg
                  ⟨e, task.retry_count, now, true⟩ }
              task := task
              success := false
              queue_puts := [] } := by
        simp [apply_scrape_result, hlt]
      rw [hrec]
      exact ⟨fun q hq => Or.inl hq, fun kv hkv => mem_setAssoc _ _ _ kv hkv,
        fun kv hkv => Or.inl hkv, rfl⟩

theorem run_task_untouched (cfg : EnhConfig) (tp : Nat) (now : String)
    (oracle : Nat → Nat → FetchOutcome) (ls : LoopState) (t : PageTask)
    (npq nrq : List PageTask) (p : Nat)
    (hq : ∀ τ ∈ npq, τ.page_num ≠ p) (hr : ∀ τ ∈ nrq, τ.page_num ≠ p)
    (ht : t.page_num ≠ p) (hu : PageUntouched ls p) :
    PageUntouched (run_task cfg tp now oracle ls t npq nrq) p := by
  obtain ⟨_, _, h3, h4, h5, h6⟩ := hu
  have hshape := apply_scrape_result_shape cfg ls.core t now
    (scrape_page_enhanced cfg t.page_num t.retry_count (decide (t.page_num = tp))
      (oracle t.page_num t.retry_count))
  have hpn : (scrape_page_enhanced cfg t.page_num t.retry_count
      (decide (t.page_num = tp)) (oracle t.page_num t.retry_count)).page_num
      = t.page_num := scrape_page_num_eq cfg t.page_num t.retry_count _ _
  have hput : (process_page_task_enhanced cfg ls.core t tp now
      (oracle t.page_num t.retry_count)).queue_puts = [] := hshape.2.2.2
  refine ⟨hq, ?_, ?_, ?_, ?_, ?_⟩
  · intro τ hτ
    rw [show (run_task cfg tp now oracle ls t npq nrq).retry_queue
        = nrq ++ (process_page_task_enhanced cfg ls.core t tp now
          (oracle t.page_num t.retry_count)).queue_puts from rfl,
      hput, List.append_nil] at hτ
    exact hr τ hτ
  · intro a ha
    rw [show (run_task cfg tp now oracle ls t npq nrq).attempts
        = ls.attempts ++ [(t.page_num, t.retry_count)] from rfl] at ha
    rcases List.mem_append.1 ha with h | h
    · exact h3 a h
    · have ha2 : a = (t.page_num, t.retry_count) := by simpa using h
      rw [ha2]
      exact ht
  · intro q hq2
    rcases hshape.1 q hq2 with h | h
    · exact h4 q h
    · rw [hpn] at h
      rw [h]
      exact ht
  · intro kv hkv
    rcases hshape.2.1 kv hkv with h | h
    · exact h5 kv h
    · rw [hpn] at h
      rw [h]
      exact ht
  · intro kv hkv
    rcases hshape.2.2.1 kv hkv with h | h
    · exact h6 kv h
    · rw [hpn] at h
      rw [h]
      exact ht

theorem loop_step_untouched (cfg : EnhConfig) (tp : Nat) (now : String)
    (oracle : Nat → Nat → FetchOutcome) (ls ls2 : LoopState) (p : Nat)
    (h : loop_step cfg tp now oracle ls = some ls2) (hu : PageUntouched ls p) :
    PageUntouched ls2 p := by
  unfold loop_step at h
  by_cases hexp : cfg.total_expected ≤ ls.core.total_items_scraped
  · rw [if_pos hexp] at h
    exact absurd h (by simp)
  · rw [if_neg hexp] at h
    rcases hpq : ls.page_queue with _ | ⟨t, rest⟩ <;> rw [hpq] at h
    · rcases hrq : ls.retry_queue with _ | ⟨t, rest⟩ <;> rw [hrq] at h
      · exact absurd h (by simp)
      · rw [← Option.some.inj h]
        have hrmem : ∀ τ ∈ ls.retry_queue, τ.page_num ≠ p := hu.2.1
        refine run_task_untouched cfg tp now oracle ls t [] rest p
          (by intro τ hτ; exact absurd hτ (List.not_mem_nil _)) ?_ ?_ hu
        · intro τ hτ
          exact hrmem τ (by rw [hrq]; exact List.mem_cons_of_mem _ hτ)
        · exact hrmem t (by rw [hrq]; exact List.mem_cons_self _ _)
    · rw [← Option.some.inj h]
      have hpmem : ∀ τ ∈ ls.page_queue, τ.page_num ≠ p := hu.1
      refine run_task_untouched cfg tp now oracle ls t rest ls.retry_queue p ?_ hu.2.1 ?_ hu
      · intro τ hτ
        exact hpmem τ (by rw [hpq]; exact List.mem_cons_of_mem _ hτ)
      · exact hpmem t (by rw [hpq]; exact List.mem_cons_self _ _)

theorem run_loop_untouched (cfg : EnhConfig) (tp : Nat) (now : String)
    (oracle : Nat → Nat → FetchOutcome) :
    ∀ (fuel : Nat) (ls : LoopState) (p : Nat), PageUntouched ls p →
      PageUntouched (run_loop cfg tp now oracle fuel ls) p := by
  intro fuel
  induction fuel with
  | zero => intro ls p hu; exact hu
  | succ fuel ih =>
    intro ls p hu
    rw [run_loop]
    rcases hstep : loop_step cfg tp now oracle ls with _ | ls2
    · exact hu
    · exact ih ls2 p (loop_step_untouched cfg tp now oracle ls ls2 p hstep hu)

theorem seed_pages_mem (t : Nat) : ∀ τ ∈ seed_pages t, τ.page_num ≤ 2000 := by
  intro τ hτ
  unfold seed_pages at hτ
  rcases List.mem_map.1 hτ with ⟨q, hq, rfl⟩
  unfold py_range at hq
  rcases List.mem_map.1 hq with ⟨i, hi, rfl⟩
  have hi2 : i < min t 2000 + 1 - 1 := List.mem_range.1 hi
  have hmin : min t 2000 ≤ 2000 := Nat.min_le_right t 2000
  show 1 + i ≤ 2000
  omega

/-- Claim C10: the scheduling loop seeds exactly min(total_pages, 2000) page
tasks, and any page numbered above 2000 is never scheduled, attempted,
scraped, failed, or recorded at any point of any run. -/
theorem seed_capped_at_2000 (cfg : EnhConfig) (total_pages : Nat) (now : String)
    (oracle : Nat → Nat → FetchOutcome) (fuel p : Nat) (hp : 2000 < p) :
    (seed_pages total_pages).length = min total_pages 2000 ∧
    PageUntouched (run_loop cfg total_pages now oracle fuel
      (init_loop_state total_pages)) p := by
  constructor
  · simp [seed_pages, py_range]
  · apply run_loop_untouched
    refine ⟨?_, ?_, ?_, ?_, ?_, ?_⟩
    · intro τ hτ
      have := seed_pages_mem total_pages τ hτ
      omega
    · intro τ hτ
      exact absurd hτ (List.not_mem_nil _)
    · intro a ha
      exact absurd ha (List.not_mem_nil _)
    · intro q hq
      exact absurd hq (List.not_mem_nil _)
    · intro kv hkv
      exact absurd hkv (List.not_mem_nil _)
    · intro kv hkv
      exact absurd hkv (List.not_mem_nil _)

/-- Witness for seed_capped_at_2000: 2500 reported pages, page 2001 above the
cap. -/
theorem seed_capped_at_2000_witness :
    2000 < 2001 ∧
    ((seed_pages 2500).length = min 2500 2000 ∧
     PageUntouched (run_loop ⟨3, 18, 50000⟩ 2500 "t" (fun _ _ => FetchOutcome.ok 20) 5
       (init_loop_state 2500)) 2001) :=
  ⟨by decide, seed_capped_at_2000 ⟨3, 18, 50000⟩ 2500 "t"
    (fun _ _ => FetchOutcome.ok 20) 5 2001 (by decide)⟩
